import Mathlib

/-!
Verification of the `soxr` Conan recipe (`recipes/soxr/all/conanfile.py`).

The recipe is a configuration script: from an option set and the target
platform settings it normalizes options (`config_options` / `configure`),
emits a toolchain-variable map (`generate`) and a package-metadata
component list (`package_info`), and performs a string-anchored license
extraction (`_extract_pffft_license`).  Each Python method is embedded
below as a total Lean function over explicit records; Python strings stay
`String`, Python dicts become association lists in insertion order.
-/

namespace Soxr

/-- Recipe options after normalization.  `fPIC = none` models a deleted
option (`del self.options.fPIC` / `rm_safe`), `some b` a defined one. -/
structure Options where
  shared : Bool
  fPIC : Option Bool
  with_openmp : Bool
  with_lsr_bindings : Bool
deriving Repr, DecidableEq

/-- The platform settings the recipe reads, plus the two values obtained
from the `conan.tools.microsoft` helpers: `msvc_runtime_flag` is the
string returned by `msvc_runtime_flag(self)` (for example "MD", "MT",
"MDd"), meaningful only for a Microsoft toolchain. -/
structure Settings where
  os : String
  arch : String
  compiler : String
  msvc_runtime_flag : String
deriving Repr, DecidableEq

/-- `is_msvc(self)`: the compiler is the Microsoft toolchain
("Visual Studio" in Conan 1.x naming, "msvc" in the new naming). -/
def is_msvc (st : Settings) : Bool :=
  st.compiler == "Visual Studio" || st.compiler == "msvc"

/-- `config_options`: on Windows, delete the `fPIC` option. -/
def config_options (st : Settings) (o : Options) : Options :=
  if st.os = "Windows" then { o with fPIC := none } else o

/-- `configure`: when `shared`, remove `fPIC` (`rm_safe`: a no-op when the
option is already gone). -/
def configure (o : Options) : Options :=
  if o.shared then { o with fPIC := none } else o

/-- Option normalization as the Conan lifecycle runs it:
`config_options` then `configure`. -/
def normalize (st : Settings) (o : Options) : Options :=
  configure (config_options st o)

/-- A toolchain variable value: the recipe stores booleans and strings. -/
inductive TCVal where
  | vbool : Bool → TCVal
  | vstr : String → TCVal
deriving Repr, DecidableEq

/-- The `CMakeToolchain` state the recipe fills in `generate`:
`cache_variables` and `variables` are separate dicts, kept in insertion
order.  The second dict is named `vars` here because `variables` is a
reserved word in Lean. -/
structure Toolchain where
  cache_variables : List (String × TCVal)
  vars : List (String × TCVal)
deriving Repr, DecidableEq

/-- Conan `Version` comparison on parsed dotted components, numeric and
lexicographic, as the recipe uses it for `Version(self.version) < "3.21"`. -/
def versionLt : List Nat → List Nat → Bool
  | [], [] => false
  | [], _ :: _ => true
  | _ :: _, [] => false
  | a :: as, b :: bs => if a < b then true else if b < a then false else versionLt as bs

/-- Split a character list on the dot separator. -/
def splitDots (acc : List Char) : List Char → List (List Char)
  | [] => [acc.reverse]
  | c :: cs => if c = '.' then acc.reverse :: splitDots [] cs else splitDots (c :: acc) cs

/-- Read a run of decimal digits as a number. -/
def digitsToNat (acc : Nat) : List Char → Nat
  | [] => acc
  | c :: cs => digitsToNat (acc * 10 + (c.toNat - 48)) cs

/-- Parse a dotted version string such as "3.20" into its numeric
components, the shape Conan `Version` compares on. -/
def parseVersion (s : String) : List Nat :=
  (splitDots [] s.toList).map (digitsToNat 0)

/-- `generate`: build the toolchain-variable maps exactly as the recipe
does, in insertion order.  `CMP0077` is always set; `CMP0115` only for
versions below 3.21; `BUILD_SHARED_RUNTIME` only under a Microsoft
toolchain; the two SIMD engine toggles only on Apple Silicon; the tail
three variables always. -/
def generate (version : List Nat) (o : Options) (st : Settings) : Toolchain :=
  { cache_variables :=
      [("CMAKE_POLICY_DEFAULT_CMP0077", TCVal.vstr "NEW")] ++
      (if versionLt version [3, 21] then
        [("CMAKE_POLICY_DEFAULT_CMP0115", TCVal.vstr "OLD")]
      else []),
    vars :=
      (if is_msvc st then
        [("BUILD_SHARED_RUNTIME", TCVal.vbool (st.msvc_runtime_flag == "MD"))]
      else []) ++
      (if st.os = "Macos" ∧ st.arch = "armv8" then
        [("WITH_CR32S", TCVal.vbool false), ("WITH_CR64S", TCVal.vbool false)]
      else []) ++
      [("BUILD_TESTS", TCVal.vbool false),
       ("WITH_OPENMP", TCVal.vbool o.with_openmp),
       ("WITH_LSR_BINDINGS", TCVal.vbool o.with_lsr_bindings)] }

/-- All toolchain variables of both dicts, for membership questions. -/
def tcAll (t : Toolchain) : List (String × TCVal) :=
  t.cache_variables ++ t.vars

/-- Look a key up in a variable map. -/
def tcLookup (m : List (String × TCVal)) (k : String) : Option TCVal :=
  (m.find? (fun p => p.1 == k)).map Prod.snd

/-- One entry of `self.cpp_info.components`, with every field the recipe
writes. -/
structure Component where
  name : String
  pkg_config_name : String
  libs : List String
  system_libs : List String
  defines : List String
  exelinkflags : List String
  sharedlinkflags : List String
  requires : List String
deriving Repr, DecidableEq

/-- The OpenMP link-flag chain of `package_info`, keyed on the compiler
setting exactly as the Python `in` / `==` tests read. -/
def openmp_flags (st : Settings) : List String :=
  if st.compiler = "Visual Studio" ∨ st.compiler = "msvc" then ["-openmp"]
  else if st.compiler = "gcc" ∨ st.compiler = "clang" then ["-fopenmp"]
  else if st.compiler = "apple-clang" then ["-Xpreprocessor", "-fopenmp"]
  else []

/-- `package_info`: emit the `core` component always and the `lsr`
component only under `with_lsr_bindings`, with every field as the recipe
assigns it.  Fields the recipe never touches keep Conan's empty default. -/
def package_info (o : Options) (st : Settings) : List Component :=
  let flags := if o.shared = false ∧ o.with_openmp = true then openmp_flags st else []
  let core : Component :=
    { name := "core",
      pkg_config_name := "soxr",
      libs := ["soxr"],
      system_libs := if st.os = "FreeBSD" ∨ st.os = "Linux" then ["m"] else [],
      defines := if st.os = "Windows" ∧ o.shared = true then ["SOXR_DLL"] else [],
      exelinkflags := flags,
      sharedlinkflags := flags,
      requires := [] }
  let lsr : Component :=
    { name := "lsr",
      pkg_config_name := "soxr-lsr",
      libs := ["soxr-lsr"],
      system_libs := [],
      defines := if st.os = "Windows" ∧ o.shared = true then ["SOXR_DLL"] else [],
      exelinkflags := [],
      sharedlinkflags := [],
      requires := ["core"] }
  if o.with_lsr_bindings then [core, lsr] else [core]

/-- The full resolution the spec calls `resolve`: toolchain variables from
`generate` paired with the component list from `package_info`. -/
def resolve (version : List Nat) (o : Options) (st : Settings) :
    Toolchain × List Component :=
  (generate version o st, package_info o st)

/-- Fetch a named component from an emitted component list. -/
def getComponent (cs : List Component) (n : String) : Option Component :=
  cs.find? (fun c => c.name == n)

/-- The `core` component of `package_info`. -/
def coreComp (o : Options) (st : Settings) : Option Component :=
  getComponent (package_info o st) "core"

/-- The `lsr` component of `package_info`, when emitted. -/
def lsrComp (o : Options) (st : Settings) : Option Component :=
  getComponent (package_info o st) "lsr"

/-- Does the pattern occur at the head of the text. -/
def headMatch : List Char → List Char → Bool
  | [], _ => true
  | _ :: _, [] => false
  | p :: ps, c :: cs => p == c && headMatch ps cs

/-- Index of the first occurrence of the pattern, scanning left to
right. -/
def findIdx : List Char → List Char → Option Nat
  | pat, [] => if headMatch pat [] then some 0 else none
  | pat, c :: cs =>
      if headMatch pat (c :: cs) then some 0
      else (findIdx pat cs).map (· + 1)

/-- Python `s.find(pat)`: index of the first occurrence, `-1` when the
pattern is absent. -/
def pyFind (s pat : String) : Int :=
  match findIdx pat.toList s.toList with
  | some n => (n : Int)
  | none => -1

/-- Python `s[a:b]` for nonnegative bounds: characters `a ≤ i < b`,
clamped to the text length, empty when `a ≥ b`. -/
def pySlice (s : String) (a b : Nat) : String :=
  String.mk ((s.toList.drop a).take (b - a))

/-- `_extract_pffft_license`: the license text the recipe writes, computed
from the loaded `pffft.c` content.  Both `find` results are at least `-1`,
so the slice bounds `find+3` and `find+13` are nonnegative and the
`Int.toNat` conversions are exact.  The function is total: it slices and
returns text for every input, raising nothing. -/
def extract_pffft_license (pffft_c : String) : String :=
  pySlice pffft_c
    (pyFind pffft_c "/* Copyright" + 3).toNat
    (pyFind pffft_c "modern CPUs." + 13).toNat

end Soxr

namespace Soxr

/-- Bridge between the boolean string comparison the embedding stores and
the propositional equality the claims speak of. -/
lemma beq_decide (s t : String) : (s == t) = decide (s = t) := by
  by_cases h : s = t <;> simp [h]

/-- The `core` component that `package_info` emits, with each field spelled
out; it is present for every input. -/
lemma coreComp_eq (o : Options) (st : Settings) :
    coreComp o st = some
      { name := "core",
        pkg_config_name := "soxr",
        libs := ["soxr"],
        system_libs := if st.os = "FreeBSD" ∨ st.os = "Linux" then ["m"] else [],
        defines := if st.os = "Windows" ∧ o.shared = true then ["SOXR_DLL"] else [],
        exelinkflags := if o.shared = false ∧ o.with_openmp = true then openmp_flags st else [],
        sharedlinkflags := if o.shared = false ∧ o.with_openmp = true then openmp_flags st else [],
        requires := [] } := by
  cases h : o.with_lsr_bindings <;>
    simp [coreComp, getComponent, package_info, h, List.find?]

/-- The `lsr` component that `package_info` emits under
`with_lsr_bindings`, with each field spelled out. -/
lemma lsrComp_eq (o : Options) (st : Settings) :
    lsrComp o st =
      if o.with_lsr_bindings then
        some
          { name := "lsr",
            pkg_config_name := "soxr-lsr",
            libs := ["soxr-lsr"],
            system_libs := [],
            defines := if st.os = "Windows" ∧ o.shared = true then ["SOXR_DLL"] else [],
            exelinkflags := [],
            sharedlinkflags := [],
            requires := ["core"] }
      else none := by
  cases h : o.with_lsr_bindings <;>
    simp [lsrComp, getComponent, package_info, h, List.find?]

/-- Claim C1 (refuted; the code contradicts the spec's stated intent).
The claim says license extraction raises an error and writes nothing when
an anchor string is absent.  In the code `str.find` returns `-1` for a
missing anchor, so the slice bounds silently become `2` and `12`: on a
`pffft.c` content "hello world" containing neither anchor the recipe
writes the truncated junk "llo world", and on a content containing only
the opening anchor it writes the seven characters "Copyrig".  No error is
raised and a file is always written. -/
theorem C1_missing_anchor_silently_truncates :
    extract_pffft_license "hello world" = "llo world" ∧
      extract_pffft_license "AB/* Copyright XYZ no tail marker" = "Copyrig" :=
  ⟨rfl, rfl⟩

/-- Claim C2: for every version, option set and platform, the resolution
(`generate` plus `package_info`) is a total function whose component
sequence is non-empty and contains the component named "core". -/
theorem C2_resolve_total_core :
    ∀ (v : List Nat) (o : Options) (st : Settings),
      0 < (resolve v o st).2.length ∧
        "core" ∈ (resolve v o st).2.map Component.name := by
  intro v o st
  cases h : o.with_lsr_bindings <;> simp [resolve, package_info, h]

/-- Claim C3: the "lsr" component is present exactly when
`with_lsr_bindings` is true, and when present its requires list is
exactly ["core"] and its library list exactly ["soxr-lsr"]. -/
theorem C3_lsr_component :
    ∀ (o : Options) (st : Settings),
      ((lsrComp o st).isSome = o.with_lsr_bindings) ∧
        ((lsrComp o st).map (fun c => (c.requires, c.libs)) =
          if o.with_lsr_bindings then some (["core"], ["soxr-lsr"]) else none) := by
  intro o st
  rw [lsrComp_eq]
  cases h : o.with_lsr_bindings <;> simp [h]

/-- Claim C4: the core component's exelinkflags and sharedlinkflags are,
when `shared = false` and `with_openmp = true`, ["-openmp"] for the MSVC
family, ["-fopenmp"] for gcc or clang, ["-Xpreprocessor", "-fopenmp"] for
apple-clang and [] for any other compiler (no error); and both flag lists
are [] whenever `shared = true` or `with_openmp = false`. -/
theorem C4_core_openmp_linkflags :
    ∀ (o : Options) (st : Settings),
      (coreComp o st).map (fun c => (c.exelinkflags, c.sharedlinkflags)) =
        some
          (if o.shared = false ∧ o.with_openmp = true then
            (if st.compiler = "Visual Studio" ∨ st.compiler = "msvc" then ["-openmp"]
             else if st.compiler = "gcc" ∨ st.compiler = "clang" then ["-fopenmp"]
             else if st.compiler = "apple-clang" then ["-Xpreprocessor", "-fopenmp"]
             else [])
          else [],
          if o.shared = false ∧ o.with_openmp = true then
            (if st.compiler = "Visual Studio" ∨ st.compiler = "msvc" then ["-openmp"]
             else if st.compiler = "gcc" ∨ st.compiler = "clang" then ["-fopenmp"]
             else if st.compiler = "apple-clang" then ["-Xpreprocessor", "-fopenmp"]
             else [])
          else []) := by
  intro o st
  rw [coreComp_eq]
  rfl

/-- Claim C5: `generate` defines BUILD_SHARED_RUNTIME exactly for the
Microsoft toolchain compilers, with value true exactly when the runtime
flag equals the dynamic-runtime value "MD"; for every other compiler the
variable is absent from the whole toolchain map. -/
theorem C5_build_shared_runtime :
    ∀ (v : List Nat) (o : Options) (st : Settings),
      tcLookup (tcAll (generate v o st)) "BUILD_SHARED_RUNTIME" =
        if st.compiler = "Visual Studio" ∨ st.compiler = "msvc" then
          some (TCVal.vbool (decide (st.msvc_runtime_flag = "MD")))
        else none := by
  intro v o st
  have hmsvc : is_msvc st = decide (st.compiler = "Visual Studio" ∨ st.compiler = "msvc") := by
    by_cases h1 : st.compiler = "Visual Studio" <;> by_cases h2 : st.compiler = "msvc" <;>
      simp [is_msvc, h1, h2]
  by_cases hc : st.compiler = "Visual Studio" ∨ st.compiler = "msvc" <;>
    cases hv : versionLt v [3, 21] <;>
    by_cases hm : (st.os = "Macos" ∧ st.arch = "armv8") <;>
      simp [tcLookup, tcAll, generate, hmsvc, hc, hv, hm, List.find?, beq_decide]

/-- Claim C6: after option normalization, `fPIC` is undefined whenever the
operating system is Windows, and undefined whenever `shared = true`, on
every platform. -/
theorem C6_fpic_removed :
    ∀ (st : Settings) (o : Options),
      st.os = "Windows" ∨ o.shared = true → (normalize st o).fPIC = none := by
  intro st o h
  rcases h with h | h <;>
    simp only [normalize, configure, config_options, h] <;>
    split_ifs <;> simp_all

/-- Witness for C6 at a concrete Windows input. -/
theorem C6_fpic_removed_witness :
    (⟨"Windows", "x86_64", "msvc", "MD"⟩ : Settings).os = "Windows" ∧
      (normalize ⟨"Windows", "x86_64", "msvc", "MD"⟩
        ⟨false, some true, false, true⟩).fPIC = none :=
  ⟨rfl, C6_fpic_removed ⟨"Windows", "x86_64", "msvc", "MD"⟩
    ⟨false, some true, false, true⟩ (Or.inl rfl)⟩

/-- Claim C7: the toolchain map contains CMAKE_POLICY_DEFAULT_CMP0115,
with value "OLD", exactly when the version compares strictly below 3.21;
in particular it is present for version "3.20" and absent for "3.22". -/
theorem C7_cmp0115_policy :
    ∀ (v : List Nat) (o : Options) (st : Settings),
      (tcLookup (tcAll (generate v o st)) "CMAKE_POLICY_DEFAULT_CMP0115" =
        if versionLt v [3, 21] then some (TCVal.vstr "OLD") else none) ∧
      tcLookup (tcAll (generate (parseVersion "3.20") o st))
          "CMAKE_POLICY_DEFAULT_CMP0115" = some (TCVal.vstr "OLD") ∧
      tcLookup (tcAll (generate (parseVersion "3.22") o st))
          "CMAKE_POLICY_DEFAULT_CMP0115" = none := by
  intro v o st
  refine ⟨?_, ?_, ?_⟩ <;>
    cases hmv : is_msvc st <;>
    by_cases hm : (st.os = "Macos" ∧ st.arch = "armv8") <;>
    cases hv : versionLt v [3, 21] <;>
      simp [tcLookup, tcAll, generate, hv, hmv, hm, List.find?]

/-- Claim C8: the core component's defines are exactly ["SOXR_DLL"] when
the operating system is Windows and `shared = true` and empty otherwise,
and the same rule governs the lsr component whenever it is emitted. -/
theorem C8_soxr_dll :
    ∀ (o : Options) (st : Settings),
      ((coreComp o st).map Component.defines =
        some (if st.os = "Windows" ∧ o.shared = true then ["SOXR_DLL"] else [])) ∧
      ((lsrComp o st).map Component.defines =
        if o.with_lsr_bindings then
          some (if st.os = "Windows" ∧ o.shared = true then ["SOXR_DLL"] else [])
        else none) := by
  intro o st
  rw [coreComp_eq, lsrComp_eq]
  cases h : o.with_lsr_bindings <;> simp [h]

/-- Claim C9: the core component's system libraries are exactly ["m"] when
the operating system is Linux or FreeBSD, and empty for every other
operating system. -/
theorem C9_system_libs :
    ∀ (o : Options) (st : Settings),
      (coreComp o st).map Component.system_libs =
        some (if st.os = "Linux" ∨ st.os = "FreeBSD" then ["m"] else []) := by
  intro o st
  rw [coreComp_eq]
  by_cases h1 : st.os = "FreeBSD" <;> by_cases h2 : st.os = "Linux" <;> simp [h1, h2]

/-- Claim C10: for every input, the core component's exelinkflags sequence
equals its sharedlinkflags sequence; `package_info` always assigns the
two from the same value. -/
theorem C10_linkflags_equal :
    ∀ (o : Options) (st : Settings),
      (coreComp o st).map Component.exelinkflags =
        (coreComp o st).map Component.sharedlinkflags := by
  intro o st
  rw [coreComp_eq]
  rfl

end Soxr
